import Mathlib

/-!
Shallow embedding of the EmpowerGRID escrow program
(src/programs/empower_grid/src/{lib.rs, state.rs, upgrade.rs}).

Machine integers are modelled as `Nat` with explicit `% 2 ^ w`
wherever the Rust source performs unchecked (wrapping) arithmetic;
the `checked_add` / `checked_sub` helpers return `Option Nat` exactly
like Rust's `u64::checked_add` / `u64::checked_sub`.

Instruction handlers are modelled as functions from an explicit
context (the accounts the handler touches, plus signer flags supplied
by the runtime) to `Except TxError <updated context>`.  This mirrors
the Solana execution model the handlers rely on: a failed instruction
aborts the whole transaction and none of its account mutations are
observed, so an `Except.error` result carries no state.
-/

namespace EmpowerGrid

/-- Account addresses / public keys, modelled as an opaque comparable id. -/
abbrev Pubkey := Nat

/-- A 32-byte value (Merkle root / hash), modelled as an opaque id. -/
abbrev Root := Nat

def U64_MOD : Nat := 2 ^ 64
def U16_MOD : Nat := 2 ^ 16
def U8_MOD : Nat := 2 ^ 8

/-- Rust `u64::checked_add`: `none` exactly when the sum would wrap. -/
def checked_add (a b : Nat) : Option Nat :=
  if a + b < U64_MOD then some (a + b) else none

/-- Rust `u64::checked_sub`: `none` exactly when the difference would wrap. -/
def checked_sub (a b : Nat) : Option Nat :=
  if b ≤ a then some (a - b) else none

/-- The program's error enum (lib.rs, `ErrorCode`). -/
inductive ErrorCode where
  | NumericalOverflow
  | Unauthorized
  | StringTooLong
  | InvalidMilestone
  | MetricThresholdNotMet
  | InsufficientFunds
  | AlreadyReleased
  | InvalidAmount
  deriving DecidableEq

/-- A transaction-level failure: either a program error code, or a failure
of the invoked system-program transfer (fund_project's `invoke`). -/
inductive TxError where
  | code : ErrorCode → TxError
  | transferFailed : TxError
  deriving DecidableEq

/-- lib.rs `Project` account. -/
structure Project where
  id : Nat
  name : String
  description : String
  creator : Pubkey
  governance_authority : Pubkey
  oracle_authority : Pubkey
  vault : Pubkey
  vault_bump : Nat
  funded_amount : Nat
  kwh_total : Nat
  co2_total : Nat
  last_metrics_root : Root
  num_milestones : Nat
  deriving DecidableEq

/-- lib.rs `Milestone` account. -/
structure Milestone where
  project : Pubkey
  index : Nat
  amount_lamports : Nat
  kwh_target : Nat
  co2_target : Nat
  payee : Pubkey
  released : Bool
  deriving DecidableEq

/-- Accounts context of `create_milestone` (lib.rs, `CreateMilestone`).
`creator` is an Anchor `Signer`, so its signature is enforced by the
runtime; `governance_authority` is an `UncheckedAccount`, so the
runtime does NOT require its signature — `governance_is_signer` records
whether it happened to sign, and the handler never inspects it. -/
structure CreateMilestoneCtx where
  project : Project
  project_key : Pubkey
  creator : Pubkey
  governance_authority : Pubkey
  governance_is_signer : Bool
  deriving DecidableEq

/-- lib.rs `create_milestone`.  The authorization check is
`creator.key() == project.creator || governance_authority.key() ==
project.governance_authority`; no signature is required of the
governance account.  The milestone-count update `index + 1 >
num_milestones` is u8 arithmetic, which wraps in release builds,
hence the `% U8_MOD`. -/
def create_milestone (ctx : CreateMilestoneCtx)
    (index amount_lamports kwh_target co2_target : Nat) (payee : Pubkey) :
    Except TxError (Project × Milestone) :=
  if ¬ (ctx.creator = ctx.project.creator ∨
        ctx.governance_authority = ctx.project.governance_authority) then
    .error (.code .Unauthorized)
  else
    let ms : Milestone :=
      { project := ctx.project_key
        index := index
        amount_lamports := amount_lamports
        kwh_target := kwh_target
        co2_target := co2_target
        payee := payee
        released := false }
    let next := (index + 1) % U8_MOD
    let project :=
      if next > ctx.project.num_milestones then
        { ctx.project with num_milestones := next }
      else ctx.project
    .ok (project, ms)

/-- Accounts context of `fund_project` (lib.rs, `FundProject`).
The vault balance is the lamport balance of the vault account,
held by the runtime. -/
structure FundProjectCtx where
  project : Project
  vault_lamports : Nat
  funder : Pubkey
  funder_lamports : Nat
  deriving DecidableEq

/-- The system-program transfer invoked by `fund_project`: moves
`amount` lamports from source to destination, failing (and aborting
the transaction) if the source balance is insufficient or the
destination balance would overflow. -/
def transfer_lamports (source dest amount : Nat) : Except TxError (Nat × Nat) :=
  if amount ≤ source ∧ dest + amount < U64_MOD then
    .ok (source - amount, dest + amount)
  else .error .transferFailed

/-- lib.rs `fund_project`: requires `amount > 0`, transfers the
lamports, then adds `amount` to `funded_amount` with checked addition. -/
def fund_project (ctx : FundProjectCtx) (amount : Nat) :
    Except TxError FundProjectCtx :=
  if amount = 0 then .error (.code .InvalidAmount)
  else
    match transfer_lamports ctx.funder_lamports ctx.vault_lamports amount with
    | .error e => .error e
    | .ok (f, v) =>
      match checked_add ctx.project.funded_amount amount with
      | none => .error (.code .NumericalOverflow)
      | some funded =>
        .ok { ctx with
                funder_lamports := f
                vault_lamports := v
                project := { ctx.project with funded_amount := funded } }

/-- Accounts context of `submit_metrics` (lib.rs, `SubmitMetrics`).
`oracle_authority` is an Anchor `Signer`, so its signature is enforced
by the runtime before the handler runs. -/
structure SubmitMetricsCtx where
  project : Project
  oracle_authority : Pubkey
  deriving DecidableEq

/-- lib.rs `submit_metrics`: oracle-key check, then checked additions of
both deltas (kwh first, then co2), then optional root replacement. -/
def submit_metrics (ctx : SubmitMetricsCtx) (kwh_delta co2_delta : Nat)
    (new_root : Option Root) : Except TxError Project :=
  if ctx.project.oracle_authority ≠ ctx.oracle_authority then
    .error (.code .Unauthorized)
  else
    match checked_add ctx.project.kwh_total kwh_delta with
    | none => .error (.code .NumericalOverflow)
    | some kwh =>
      match checked_add ctx.project.co2_total co2_delta with
      | none => .error (.code .NumericalOverflow)
      | some co2 =>
        let p := { ctx.project with kwh_total := kwh, co2_total := co2 }
        .ok (match new_root with
             | some root => { p with last_metrics_root := root }
             | none => p)

/-- Accounts context of `release_milestone` (lib.rs, `ReleaseMilestone`).
`governance_authority` is an Anchor `Signer`; the handler additionally
re-checks `is_signer`, modelled by the `governance_is_signer` flag.
`vault_lamports` and `payee_lamports` are the lamport balances of the
vault and payee accounts. -/
structure ReleaseMilestoneCtx where
  project : Project
  project_key : Pubkey
  vault_lamports : Nat
  milestone : Milestone
  payee_lamports : Nat
  governance_authority : Pubkey
  governance_is_signer : Bool
  deriving DecidableEq

/-- lib.rs `release_milestone`, checks in source order: signer,
governance key, not released, milestone-project match, kwh threshold,
co2 threshold, vault balance; then checked vault debit and checked
payee credit, then `released := true`. -/
def release_milestone (ctx : ReleaseMilestoneCtx) :
    Except TxError ReleaseMilestoneCtx :=
  if ctx.governance_is_signer = false then .error (.code .Unauthorized)
  else if ctx.project.governance_authority ≠ ctx.governance_authority then
    .error (.code .Unauthorized)
  else if ctx.milestone.released then .error (.code .AlreadyReleased)
  else if ctx.milestone.project ≠ ctx.project_key then
    .error (.code .InvalidMilestone)
  else if ¬ (ctx.milestone.kwh_target ≤ ctx.project.kwh_total) then
    .error (.code .MetricThresholdNotMet)
  else if ¬ (ctx.milestone.co2_target ≤ ctx.project.co2_total) then
    .error (.code .MetricThresholdNotMet)
  else if ¬ (ctx.milestone.amount_lamports ≤ ctx.vault_lamports) then
    .error (.code .InsufficientFunds)
  else
    match checked_sub ctx.vault_lamports ctx.milestone.amount_lamports with
    | none => .error (.code .NumericalOverflow)
    | some v =>
      match checked_add ctx.payee_lamports ctx.milestone.amount_lamports with
      | none => .error (.code .NumericalOverflow)
      | some p =>
        .ok { ctx with
                vault_lamports := v
                payee_lamports := p
                milestone := { ctx.milestone with released := true } }

/-- upgrade.rs `ContractVersion` account. -/
structure ContractVersion where
  version : Nat
  upgrade_authority : Pubkey
  previous_version : Option Pubkey
  last_upgrade : Int
  upgrade_count : Nat
  upgrade_in_progress : Bool
  migration_complete : Bool
  bump : Nat
  deriving DecidableEq

/-- upgrade.rs `ContractVersion::can_upgrade`. -/
def ContractVersion.can_upgrade (v : ContractVersion) : Bool :=
  !v.upgrade_in_progress

/-- upgrade.rs `ContractVersion::start_upgrade`: unconditionally sets
the in-progress flag and clears the migration flag; it performs no
check and cannot fail. -/
def ContractVersion.start_upgrade (v : ContractVersion) : ContractVersion :=
  { v with upgrade_in_progress := true, migration_complete := false }

/-- upgrade.rs `ContractVersion::complete_upgrade`; `now` stands for
`Clock::get().unwrap().unix_timestamp`.  The `upgrade_count += 1` is
unchecked u64 arithmetic, hence the `% U64_MOD`. -/
def ContractVersion.complete_upgrade (v : ContractVersion)
    (new_version : Nat) (now : Int) : ContractVersion :=
  { v with
      version := new_version
      upgrade_count := (v.upgrade_count + 1) % U64_MOD
      last_upgrade := now
      upgrade_in_progress := false
      migration_complete := true }

/-- upgrade.rs `ContractVersion::cancel_upgrade`. -/
def ContractVersion.cancel_upgrade (v : ContractVersion) : ContractVersion :=
  { v with upgrade_in_progress := false }

/-- upgrade.rs `MigrationState` account. -/
structure MigrationState where
  original_contract : Pubkey
  new_contract : Pubkey
  migration_started : Int
  migration_completed : Option Int
  state_hash : Root
  validation_passed : Bool
  stakeholders_notified : Bool
  approval_count : Nat
  required_approvals : Nat
  bump : Nat
  deriving DecidableEq

/-- upgrade.rs `MigrationState::is_complete`. -/
def MigrationState.is_complete (m : MigrationState) : Bool :=
  m.migration_completed.isSome && m.validation_passed

/-- upgrade.rs `MigrationState::has_all_approvals`. -/
def MigrationState.has_all_approvals (m : MigrationState) : Bool :=
  decide (m.required_approvals ≤ m.approval_count)

/-- upgrade.rs `MigrationState::add_approval`: `approval_count += 1`
on a u8, which wraps in release builds, hence the `% U8_MOD`. -/
def MigrationState.add_approval (m : MigrationState) : MigrationState :=
  { m with approval_count := (m.approval_count + 1) % U8_MOD }

/-- state.rs `EscrowStatus`. -/
inductive EscrowStatus where
  | Initialized
  | Active
  | Completed
  | Disputed
  | EmergencyStopped
  deriving DecidableEq

/-- state.rs `EscrowAccount`. -/
structure EscrowAccount where
  project_id : String
  creator : Pubkey
  total_amount : Nat
  released_amount : Nat
  milestone_count : Nat
  completed_milestones : Nat
  status : EscrowStatus
  oracle_authority : Pubkey
  created_at : Int
  bump : Nat
  deriving DecidableEq

/-- state.rs `EscrowAccount::completion_percentage`:
`if milestone_count == 0 { 0 } else
 ((completed_milestones as u16 * 100) / milestone_count as u16) as u8`.
The u16 product would wrap at `U16_MOD`; the final `as u8` cast
truncates modulo `U8_MOD`. -/
def EscrowAccount.completion_percentage (e : EscrowAccount) : Nat :=
  if e.milestone_count = 0 then 0
  else e.completed_milestones * 100 % U16_MOD / e.milestone_count % U8_MOD

/-- Decidable equality for `Except` results, used to evaluate the
handlers on concrete inputs. -/
instance {ε α : Type} [DecidableEq ε] [DecidableEq α] :
    DecidableEq (Except ε α) := fun a b =>
  match a, b with
  | .error a1, .error b1 =>
    if h : a1 = b1 then isTrue (by rw [h]) else isFalse (by simp [h])
  | .error _, .ok _ => isFalse (fun h2 => Except.noConfusion h2)
  | .ok _, .error _ => isFalse (fun h2 => Except.noConfusion h2)
  | .ok a1, .ok b1 =>
    if h : a1 = b1 then isTrue (by rw [h]) else isFalse (by simp [h])

/-! ### Sample states used by the concrete witnesses and counterexamples -/

/-- A project whose metrics meet the sample milestone's targets. -/
def rmProject : Project :=
  { id := 1, name := "solar", description := "farm", creator := 10,
    governance_authority := 20, oracle_authority := 30, vault := 40,
    vault_bump := 255, funded_amount := 100, kwh_total := 1000,
    co2_total := 60, last_metrics_root := 0, num_milestones := 1 }

/-- A sample unreleased milestone for `rmProject` (account key 5). -/
def rmMilestone : Milestone :=
  { project := 5, index := 0, amount_lamports := 10, kwh_target := 900,
    co2_target := 50, payee := 70, released := false }

/-- A release context in which every check passes. -/
def rmOkCtx : ReleaseMilestoneCtx :=
  { project := rmProject, project_key := 5, vault_lamports := 100,
    milestone := rmMilestone, payee_lamports := 7,
    governance_authority := 20, governance_is_signer := true }

/-- The context after the successful release from `rmOkCtx`. -/
def rmOkCtx2 : ReleaseMilestoneCtx :=
  { project := rmProject, project_key := 5, vault_lamports := 90,
    milestone := { rmMilestone with released := true }, payee_lamports := 17,
    governance_authority := 20, governance_is_signer := true }

/-! ### Helper lemmas -/

/-- Inversion for `release_milestone`: it succeeds exactly when every
check passes, and then the updated context is determined. -/
theorem release_milestone_ok_iff (c c2 : ReleaseMilestoneCtx) :
    release_milestone c = .ok c2 ↔
      c.governance_is_signer = true ∧
      c.project.governance_authority = c.governance_authority ∧
      c.milestone.released = false ∧
      c.milestone.project = c.project_key ∧
      c.milestone.kwh_target ≤ c.project.kwh_total ∧
      c.milestone.co2_target ≤ c.project.co2_total ∧
      c.milestone.amount_lamports ≤ c.vault_lamports ∧
      c.payee_lamports + c.milestone.amount_lamports < U64_MOD ∧
      c2 = { c with
               vault_lamports := c.vault_lamports - c.milestone.amount_lamports
               payee_lamports := c.payee_lamports + c.milestone.amount_lamports
               milestone := { c.milestone with released := true } } := by
  unfold release_milestone checked_sub checked_add
  split_ifs with h1 h2 h3 h4 h5 h6 h7 h8 <;> simp_all
  exact eq_comm

/-! ### Claims -/

/-- C1: release_milestone succeeds only if both the project's
cumulative kwh_total meets the milestone's kwh_target and its
co2_total meets the co2_target; and in any otherwise well-formed call
(authenticated governance signer, unreleased milestone bound to the
project) where kwh_total meets its target but co2_total is below its
target, it fails with MetricThresholdNotMet. -/
theorem C1_release_requires_both_thresholds (c : ReleaseMilestoneCtx) :
    (∀ c2, release_milestone c = .ok c2 →
        c.milestone.kwh_target ≤ c.project.kwh_total ∧
        c.milestone.co2_target ≤ c.project.co2_total) ∧
    (c.governance_is_signer = true →
      c.project.governance_authority = c.governance_authority →
      c.milestone.released = false →
      c.milestone.project = c.project_key →
      c.milestone.kwh_target ≤ c.project.kwh_total →
      c.project.co2_total < c.milestone.co2_target →
      release_milestone c = .error (.code .MetricThresholdNotMet)) := by
  constructor
  · intro c2 h
    have h2 := (release_milestone_ok_iff c c2).1 h
    exact ⟨h2.2.2.2.2.1, h2.2.2.2.2.2.1⟩
  · intro h1 h2 h3 h4 h5 h6
    unfold release_milestone
    rw [if_neg (by simp [h1]), if_neg (by simp [h2]), if_neg (by simp [h3]),
        if_neg (by simp [h4]), if_neg (by omega), if_pos (by omega)]

/-- Project with kwh above target but co2 below target. -/
def c1Project : Project := { rmProject with co2_total := 40 }

/-- Release context where only the co2 threshold fails. -/
def c1Ctx : ReleaseMilestoneCtx := { rmOkCtx with project := c1Project }

/-- Witness for C1: with kwh_total 1000 ≥ 900 but co2_total 40 < 50,
release_milestone fails with MetricThresholdNotMet. -/
theorem C1_release_requires_both_thresholds_witness :
    release_milestone c1Ctx = .error (.code .MetricThresholdNotMet) :=
  (C1_release_requires_both_thresholds c1Ctx).2 (by decide) (by decide)
    (by decide) (by decide) (by decide) (by decide)

/-- C2: a successful release_milestone happens only on an unreleased
milestone, sets released to true, debits the vault by the payout
exactly once, and a second release_milestone on the resulting state
fails with AlreadyReleased. -/
theorem C2_release_exactly_once (c c2 : ReleaseMilestoneCtx)
    (h : release_milestone c = .ok c2) :
    c.milestone.released = false ∧
    c2.milestone.released = true ∧
    c2.vault_lamports = c.vault_lamports - c.milestone.amount_lamports ∧
    c.milestone.amount_lamports ≤ c.vault_lamports ∧
    release_milestone c2 = .error (.code .AlreadyReleased) := by
  obtain ⟨h1, h2, h3, h4, h5, h6, h7, h8, hc2⟩ :=
    (release_milestone_ok_iff c c2).1 h
  subst hc2
  refine ⟨h3, rfl, rfl, h7, ?_⟩
  unfold release_milestone
  rw [if_neg (by simp [h1]), if_neg (by simp [h2]), if_pos (by simp)]

/-- Witness for C2: the sample release succeeds (vault 100 → 90), and
releasing again fails with AlreadyReleased. -/
theorem C2_release_exactly_once_witness :
    rmOkCtx.milestone.released = false ∧
    rmOkCtx2.milestone.released = true ∧
    rmOkCtx2.vault_lamports =
      rmOkCtx.vault_lamports - rmOkCtx.milestone.amount_lamports ∧
    rmOkCtx.milestone.amount_lamports ≤ rmOkCtx.vault_lamports ∧
    release_milestone rmOkCtx2 = .error (.code .AlreadyReleased) :=
  C2_release_exactly_once rmOkCtx rmOkCtx2 (by decide)

/-- C3: on success, release_milestone debits the vault and credits the
payee by exactly the payout amount (and the credited balance stays
below 2^64); and in an otherwise well-formed call where the payee
credit would overflow, it fails with NumericalOverflow — the
`Except` result carries no partial state, mirroring the runtime's
rollback of every account mutation of a failed instruction, so
neither leg is observed on failure. -/
theorem C3_atomic_exact_transfer (c c2 : ReleaseMilestoneCtx) :
    (release_milestone c = .ok c2 →
      c.milestone.amount_lamports ≤ c.vault_lamports ∧
      c2.vault_lamports = c.vault_lamports - c.milestone.amount_lamports ∧
      c2.payee_lamports = c.payee_lamports + c.milestone.amount_lamports ∧
      c2.payee_lamports < U64_MOD) ∧
    (c.governance_is_signer = true →
      c.project.governance_authority = c.governance_authority →
      c.milestone.released = false →
      c.milestone.project = c.project_key →
      c.milestone.kwh_target ≤ c.project.kwh_total →
      c.milestone.co2_target ≤ c.project.co2_total →
      c.milestone.amount_lamports ≤ c.vault_lamports →
      U64_MOD ≤ c.payee_lamports + c.milestone.amount_lamports →
      release_milestone c = .error (.code .NumericalOverflow)) := by
  constructor
  · intro h
    obtain ⟨h1, h2, h3, h4, h5, h6, h7, h8, hc2⟩ :=
      (release_milestone_ok_iff c c2).1 h
    subst hc2
    exact ⟨h7, rfl, rfl, h8⟩
  · intro h1 h2 h3 h4 h5 h6 h7 h8
    unfold release_milestone checked_sub checked_add
    rw [if_neg (by simp [h1]), if_neg (by simp [h2]), if_neg (by simp [h3]),
        if_neg (by simp [h4]), if_neg (by omega), if_neg (by omega),
        if_neg (by omega), if_pos h7, if_neg (by omega)]

/-- Release context whose payee balance is 5 below the u64 maximum
bound, so crediting the 10-lamport payout overflows. -/
def c3Ctx : ReleaseMilestoneCtx := { rmOkCtx with payee_lamports := 2 ^ 64 - 5 }

/-- Witness for C3: the payee credit overflows and the call fails with
NumericalOverflow. -/
theorem C3_atomic_exact_transfer_witness :
    release_milestone c3Ctx = .error (.code .NumericalOverflow) :=
  (C3_atomic_exact_transfer c3Ctx c3Ctx).2 (by decide) (by decide) (by decide)
    (by decide) (by decide) (by decide) (by decide) (by decide)

/-- Inversion for `submit_metrics`: it succeeds exactly when the
oracle key matches and neither addition overflows, and then the
updated project is determined. -/
theorem submit_metrics_ok_iff (sc : SubmitMetricsCtx) (d1 d2 : Nat)
    (root : Option Root) (p2 : Project) :
    submit_metrics sc d1 d2 root = .ok p2 ↔
      sc.project.oracle_authority = sc.oracle_authority ∧
      sc.project.kwh_total + d1 < U64_MOD ∧
      sc.project.co2_total + d2 < U64_MOD ∧
      p2 = { sc.project with
               kwh_total := sc.project.kwh_total + d1
               co2_total := sc.project.co2_total + d2
               last_metrics_root :=
                 root.getD sc.project.last_metrics_root } := by
  cases root <;>
    · unfold submit_metrics checked_add
      split_ifs <;> simp_all <;> try exact eq_comm

/-- Inversion for `fund_project`: it succeeds exactly when the amount
is positive, the transfer goes through, and the funded-amount addition
does not overflow; the updated context is then determined. -/
theorem fund_project_ok_iff (fc : FundProjectCtx) (amount : Nat)
    (fc2 : FundProjectCtx) :
    fund_project fc amount = .ok fc2 ↔
      amount ≠ 0 ∧
      amount ≤ fc.funder_lamports ∧
      fc.vault_lamports + amount < U64_MOD ∧
      fc.project.funded_amount + amount < U64_MOD ∧
      fc2 = { fc with
                funder_lamports := fc.funder_lamports - amount
                vault_lamports := fc.vault_lamports + amount
                project := { fc.project with
                               funded_amount :=
                                 fc.project.funded_amount + amount } } := by
  unfold fund_project transfer_lamports checked_add
  split_ifs <;> simp_all <;> try exact eq_comm

/-- C4: with a matching oracle key, a metrics submission whose kwh
addition would overflow fails with NumericalOverflow; one whose kwh
addition fits but whose co2 addition would overflow also fails with
NumericalOverflow; and a funding whose transfer succeeds but whose
funded_amount addition would overflow fails with NumericalOverflow.
The `Except` result carries no state, mirroring the runtime rollback,
so all running totals are left unchanged. -/
theorem C4_overflow_guard (sc : SubmitMetricsCtx) (d1 d2 : Nat)
    (root : Option Root) (fc : FundProjectCtx) (amount : Nat) :
    (sc.project.oracle_authority = sc.oracle_authority →
      U64_MOD ≤ sc.project.kwh_total + d1 →
      submit_metrics sc d1 d2 root = .error (.code .NumericalOverflow)) ∧
    (sc.project.oracle_authority = sc.oracle_authority →
      sc.project.kwh_total + d1 < U64_MOD →
      U64_MOD ≤ sc.project.co2_total + d2 →
      submit_metrics sc d1 d2 root = .error (.code .NumericalOverflow)) ∧
    (amount ≠ 0 →
      amount ≤ fc.funder_lamports →
      fc.vault_lamports + amount < U64_MOD →
      U64_MOD ≤ fc.project.funded_amount + amount →
      fund_project fc amount = .error (.code .NumericalOverflow)) := by
  refine ⟨?_, ?_, ?_⟩
  · intro h1 h2
    unfold submit_metrics checked_add
    split_ifs <;> simp_all <;> omega
  · intro h1 h2 h3
    unfold submit_metrics checked_add
    split_ifs <;> simp_all <;> omega
  · intro h1 h2 h3 h4
    unfold fund_project transfer_lamports checked_add
    split_ifs <;> simp_all <;> omega

/-- Metrics context whose kwh_total is at the u64 maximum. -/
def c4KwhCtx : SubmitMetricsCtx :=
  { project := { rmProject with kwh_total := 2 ^ 64 - 1 },
    oracle_authority := 30 }

/-- Metrics context whose co2_total is at the u64 maximum while
kwh_total has room. -/
def c4Co2Ctx : SubmitMetricsCtx :=
  { project := { rmProject with co2_total := 2 ^ 64 - 1 },
    oracle_authority := 30 }

/-- Funding context whose funded_amount is at the u64 maximum. -/
def c4FundCtx : FundProjectCtx :=
  { project := { rmProject with funded_amount := 2 ^ 64 - 1 },
    vault_lamports := 0, funder := 50, funder_lamports := 10 }

/-- Witness for C4: kwh overflow, co2-only overflow (kwh leg fits),
and funded_amount overflow each fail with NumericalOverflow. -/
theorem C4_overflow_guard_witness :
    submit_metrics c4KwhCtx 1 0 none = .error (.code .NumericalOverflow) ∧
    submit_metrics c4Co2Ctx 5 1 none = .error (.code .NumericalOverflow) ∧
    fund_project c4FundCtx 1 = .error (.code .NumericalOverflow) :=
  ⟨(C4_overflow_guard c4KwhCtx 1 0 none c4FundCtx 1).1
      (by decide) (by decide),
   (C4_overflow_guard c4Co2Ctx 5 1 none c4FundCtx 1).2.1
      (by decide) (by decide) (by decide),
   (C4_overflow_guard c4Co2Ctx 5 1 none c4FundCtx 1).2.2
      (by decide) (by decide) (by decide) (by decide)⟩

/-- C7 (amended): across successful submit_metrics calls the totals
are monotonically non-decreasing — each success adds exactly the
deltas, so a total strictly increases precisely when its delta is
positive; a zero delta leaves it unchanged. -/
theorem C7_metrics_monotonic (sc : SubmitMetricsCtx) (d1 d2 : Nat)
    (root : Option Root) (p2 : Project)
    (h : submit_metrics sc d1 d2 root = .ok p2) :
    sc.project.kwh_total ≤ p2.kwh_total ∧
    sc.project.co2_total ≤ p2.co2_total ∧
    (0 < d1 → sc.project.kwh_total < p2.kwh_total) ∧
    (0 < d2 → sc.project.co2_total < p2.co2_total) ∧
    p2.kwh_total = sc.project.kwh_total + d1 ∧
    p2.co2_total = sc.project.co2_total + d2 := by
  obtain ⟨h1, h2, h3, hp⟩ := (submit_metrics_ok_iff sc d1 d2 root p2).1 h
  subst hp
  refine ⟨?_, ?_, ?_, ?_, ?_, ?_⟩ <;> dsimp only [] <;> omega

/-- Metrics context for the sample project with the matching oracle. -/
def smCtx : SubmitMetricsCtx := { project := rmProject, oracle_authority := 30 }

/-- Witness for C7 (amended): a successful call with deltas 3 and 0
adds exactly the deltas. -/
theorem C7_metrics_monotonic_witness :
    smCtx.project.kwh_total ≤ ({ rmProject with kwh_total := 1003 } : Project).kwh_total ∧
    smCtx.project.co2_total ≤ ({ rmProject with kwh_total := 1003 } : Project).co2_total ∧
    (0 < 3 → smCtx.project.kwh_total < ({ rmProject with kwh_total := 1003 } : Project).kwh_total) ∧
    (0 < 0 → smCtx.project.co2_total < ({ rmProject with kwh_total := 1003 } : Project).co2_total) ∧
    ({ rmProject with kwh_total := 1003 } : Project).kwh_total = smCtx.project.kwh_total + 3 ∧
    ({ rmProject with kwh_total := 1003 } : Project).co2_total = smCtx.project.co2_total + 0 :=
  C7_metrics_monotonic smCtx 3 0 none { rmProject with kwh_total := 1003 } (by decide)

/-- C7 counterexample: a successful submit_metrics with both deltas
zero leaves both totals exactly unchanged, refuting the claim that
every successful call yields strictly greater totals. -/
theorem C7_not_strictly_monotonic :
    submit_metrics smCtx 0 0 none = .ok rmProject ∧
    ¬ rmProject.kwh_total > smCtx.project.kwh_total ∧
    ¬ rmProject.co2_total > smCtx.project.co2_total := by decide

/-- Milestone-creation context in which the signer (account `creator`,
key 99) is NOT the project creator (key 10), and the governance
account carries the right key 20 but has NOT signed. -/
def c5Ctx : CreateMilestoneCtx :=
  { project := rmProject, project_key := 5, creator := 99,
    governance_authority := 20, governance_is_signer := false }

/-- C5: the code accepts a create_milestone call in which the signer
is not the project creator and the governance-authority account has
not signed — merely presenting the governance public key (an
UncheckedAccount, no signature required) satisfies the check, so the
call succeeds where the claim requires failure with Unauthorized. -/
theorem C5_unauthenticated_governance_accepted :
    create_milestone c5Ctx 0 5 100 50 77 =
      .ok (rmProject,
           { project := 5, index := 0, amount_lamports := 5,
             kwh_target := 100, co2_target := 50, payee := 77,
             released := false }) ∧
    c5Ctx.creator ≠ c5Ctx.project.creator ∧
    c5Ctx.governance_is_signer = false := by decide

/-- C6 (amended): for every index up to 254, a successful
create_milestone sets the project's milestone count to
max(previous count, index+1) and initializes the milestone's released
flag to false; at index 255 the u8 increment wraps and the count is
left unchanged, so the claim's bound does not extend to the maximum
representable index. -/
theorem C6_milestone_count_max (ctx : CreateMilestoneCtx)
    (index a k co : Nat) (payee : Pubkey) (p2 : Project) (ms : Milestone)
    (hidx : index ≤ 254)
    (h : create_milestone ctx index a k co payee = .ok (p2, ms)) :
    p2.num_milestones = max ctx.project.num_milestones (index + 1) ∧
    ms.released = false := by
  have hwrap : (index + 1) % U8_MOD = index + 1 :=
    Nat.mod_eq_of_lt (by unfold U8_MOD; omega)
  unfold create_milestone at h
  split_ifs at h with h1
  · simp only [hwrap] at h
    by_cases h2 : index + 1 > ctx.project.num_milestones
    · rw [if_pos h2] at h
      simp only [Except.ok.injEq, Prod.mk.injEq] at h
      obtain ⟨hp2, hms2⟩ := h
      subst hp2
      subst hms2
      exact ⟨by dsimp only []; omega, rfl⟩
    · rw [if_neg h2] at h
      simp only [Except.ok.injEq, Prod.mk.injEq] at h
      obtain ⟨hp2, hms2⟩ := h
      subst hp2
      subst hms2
      exact ⟨by omega, rfl⟩

/-- Milestone-creation context with an authorized creator and an empty
milestone count. -/
def c6Ctx : CreateMilestoneCtx :=
  { project := { rmProject with num_milestones := 0 }, project_key := 5,
    creator := 10, governance_authority := 20, governance_is_signer := true }

/-- Witness for C6 (amended): creating milestone 3 on a project with
count 0 yields count max(0, 4) = 4 and an unreleased milestone. -/
theorem C6_milestone_count_max_witness :
    ({ rmProject with num_milestones := 4 } : Project).num_milestones =
      max c6Ctx.project.num_milestones (3 + 1) ∧
    ({ project := 5, index := 3, amount_lamports := 1, kwh_target := 2,
       co2_target := 3, payee := 4, released := false } : Milestone).released
      = false :=
  C6_milestone_count_max c6Ctx 3 1 2 3 4
    { rmProject with num_milestones := 4 }
    { project := 5, index := 3, amount_lamports := 1, kwh_target := 2,
      co2_target := 3, payee := 4, released := false }
    (by decide) (by decide)

/-- C6 counterexample: at index 255 the u8 computation index+1 wraps
to 0, so the call still succeeds but leaves the milestone count at 0
instead of max(0, 256) = 256. -/
theorem C6_counterexample_index_255 :
    create_milestone c6Ctx 255 5 100 50 77 =
      .ok ({ rmProject with num_milestones := 0 },
           { project := 5, index := 255, amount_lamports := 5,
             kwh_target := 100, co2_target := 50, payee := 77,
             released := false }) ∧
    ({ rmProject with num_milestones := 0 } : Project).num_milestones ≠
      max ({ rmProject with num_milestones := 0 } : Project).num_milestones
        (255 + 1) := by decide

/-- C8 (amended): start_upgrade performs no can_upgrade check and has
no failure outcome — it unconditionally sets upgrade_in_progress and
clears migration_complete; a second start_upgrade from the Upgrading
state is accepted and is a state no-op, so gating on can_upgrade is
entirely the caller's responsibility. -/
theorem C8_start_upgrade_unconditional (v : ContractVersion) :
    v.start_upgrade =
      { v with upgrade_in_progress := true, migration_complete := false } ∧
    v.start_upgrade.can_upgrade = false ∧
    v.start_upgrade.start_upgrade = v.start_upgrade :=
  ⟨rfl, rfl, rfl⟩

/-- An idle version state, as after initialization. -/
def cvIdle : ContractVersion :=
  { version := 1, upgrade_authority := 9, previous_version := none,
    last_upgrade := 0, upgrade_count := 0, upgrade_in_progress := false,
    migration_complete := false, bump := 1 }

/-- C8 counterexample: after a first start_upgrade, can_upgrade is
false, yet a second start_upgrade is not rejected — it completes
normally, leaving the state in Upgrading. -/
theorem C8_second_start_upgrade_accepted :
    cvIdle.start_upgrade.can_upgrade = false ∧
    cvIdle.start_upgrade.start_upgrade = cvIdle.start_upgrade ∧
    cvIdle.start_upgrade.start_upgrade.upgrade_in_progress = true := by decide

/-- C9 (amended): add_approval adds one to the counter modulo 2^8
(u8 wrap), so the counter increases by exactly one — and in
particular never decreases — as long as it is below 255; the 256th
approval wraps it back to 0. -/
theorem C9_add_approval_increment (m : MigrationState)
    (h : m.approval_count < 255) :
    m.add_approval.approval_count = m.approval_count + 1 ∧
    m.approval_count ≤ m.add_approval.approval_count := by
  have h1 : m.add_approval.approval_count = (m.approval_count + 1) % 256 := rfl
  constructor <;> omega

/-- A migration state part-way to quorum. -/
def msSample : MigrationState :=
  { original_contract := 1, new_contract := 2, migration_started := 0,
    migration_completed := none, state_hash := 0, validation_passed := false,
    stakeholders_notified := false, approval_count := 2,
    required_approvals := 3, bump := 1 }

/-- Witness for C9 (amended): from 2 approvals, add_approval yields 3. -/
theorem C9_add_approval_increment_witness :
    msSample.add_approval.approval_count = msSample.approval_count + 1 ∧
    msSample.approval_count ≤ msSample.add_approval.approval_count :=
  C9_add_approval_increment msSample (by decide)

/-- A migration state whose u8 approval counter is saturated at 255. -/
def msFull : MigrationState := { msSample with approval_count := 255 }

/-- C9 counterexample: with the counter at 255, add_approval wraps the
u8 to 0 — a strict decrease of the approval counter. -/
theorem C9_approval_count_wraps :
    msFull.add_approval.approval_count = 0 ∧
    msFull.add_approval.approval_count < msFull.approval_count := by decide

/-- C10 (amended): completion_percentage is total — it returns 0 when
milestone_count = 0, with no division by zero — and otherwise returns
floor(completed*100/count) truncated modulo 2^8 by the final u8 cast;
the 16-bit intermediate product never wraps for u8 fields, and
whenever completed ≤ count the truncation is the identity, so the
result is exactly the floor and is at most 100. -/
theorem C10_completion_percentage_total (e : EscrowAccount)
    (hc : e.completed_milestones < 256) (hm : e.milestone_count < 256) :
    (e.milestone_count = 0 → e.completion_percentage = 0) ∧
    (e.milestone_count ≠ 0 →
      e.completed_milestones * 100 < U16_MOD ∧
      e.completion_percentage =
        e.completed_milestones * 100 / e.milestone_count % U8_MOD) ∧
    (e.milestone_count ≠ 0 → e.completed_milestones ≤ e.milestone_count →
      e.completion_percentage =
        e.completed_milestones * 100 / e.milestone_count ∧
      e.completion_percentage ≤ 100) := by
  have h16 : U16_MOD = 65536 := rfl
  have h8 : U8_MOD = 256 := rfl
  unfold EscrowAccount.completion_percentage
  refine ⟨?_, ?_, ?_⟩
  · intro h
    rw [if_pos h]
  · intro h
    rw [if_neg h, Nat.mod_eq_of_lt (show e.completed_milestones * 100 < U16_MOD by omega)]
    exact ⟨by omega, rfl⟩
  · intro h hcm
    rw [if_neg h, Nat.mod_eq_of_lt (show e.completed_milestones * 100 < U16_MOD by omega)]
    have hq : e.completed_milestones * 100 / e.milestone_count ≤ 100 :=
      Nat.div_le_of_le_mul (by omega)
    rw [Nat.mod_eq_of_lt (by omega)]
    exact ⟨rfl, hq⟩

/-- An escrow with more completed milestones than its count, which the
structure does not forbid. -/
def escrowOver : EscrowAccount :=
  { project_id := "p", creator := 1, total_amount := 0, released_amount := 0,
    milestone_count := 1, completed_milestones := 255,
    status := .Active, oracle_authority := 2, created_at := 0, bump := 1 }

/-- A well-formed escrow: 2 of 4 milestones completed. -/
def escrowHalf : EscrowAccount :=
  { escrowOver with milestone_count := 4, completed_milestones := 2 }

/-- Witness for C10 (amended): 2 of 4 milestones gives exactly the
floor value 50. -/
theorem C10_completion_percentage_total_witness :
    escrowHalf.completion_percentage =
      escrowHalf.completed_milestones * 100 / escrowHalf.milestone_count ∧
    escrowHalf.completion_percentage ≤ 100 :=
  (C10_completion_percentage_total escrowHalf (by decide) (by decide)).2.2
    (by decide) (by decide)

/-- C10 counterexample: with 255 completed milestones out of 1, the
u16 quotient 25500 is truncated by the final u8 cast to 156, so the
function does not return the floor value. -/
theorem C10_counterexample_truncation :
    escrowOver.completion_percentage = 156 ∧
    escrowOver.completed_milestones * 100 / escrowOver.milestone_count
      = 25500 ∧
    escrowOver.completion_percentage ≠
      escrowOver.completed_milestones * 100 / escrowOver.milestone_count := by
  decide

end EmpowerGrid
